import Mathlib

/-!
Verification of the plotscript interpreter core (src/atom.cpp, src/expression.cpp).

Machine doubles are modelled as `Option ℚ`: `some q` is an ordinary value and
`none` stands for NaN.  Exact rational arithmetic replaces IEEE rounding; the
properties verified here are structural and do not depend on rounding.  IEEE
infinities are not modelled.  The Environment class and the built-in procedure
table live in a source file absent from src/; they are modelled from the
specification (sections 4.3 and 4.4) and marked as such below.
-/

/-- Model of a C++ double: `none` is NaN, `some q` an exact value. -/
abbrev D := Option ℚ

/-- Machine epsilon for double precision, 2^(-52). -/
def deps : ℚ := 1 / 2 ^ 52

/-- Double subtraction; NaN propagates. -/
def dsub : D → D → D
  | some a, some b => some (a - b)
  | _, _ => none

/-- Double addition; NaN propagates. -/
def dadd : D → D → D
  | some a, some b => some (a + b)
  | _, _ => none

/-- Double negation (multiplication by -1); NaN propagates. -/
def dneg : D → D
  | some a => some (-a)
  | none => none

/-- fabs; NaN propagates. -/
def dabs : D → D
  | some a => some |a|
  | none => none

/-- std::isnan. -/
def disnan : D → Bool
  | none => true
  | some _ => false

/-- IEEE comparison d > c against a rational constant: false when d is NaN. -/
def dgtc : D → ℚ → Bool
  | some a, c => decide (c < a)
  | none, _ => false

/-- IEEE comparison a < b: false when either side is NaN. -/
def dlt : D → D → Bool
  | some a, some b => decide (a < b)
  | _, _ => false

/-- Double multiplication; NaN propagates. -/
def dmul : D → D → D
  | some a, some b => some (a * b)
  | _, _ => none

/-- std::max(a, b) = (a < b) ? b : a. -/
def dmax (a b : D) : D := if dlt a b then b else a

/-- std::min(a, b) = (b < a) ? b : a. -/
def dmin (a b : D) : D := if dlt b a then b else a

/-- Division by a nonzero literal constant (only /2 occurs in the source). -/
def ddivC (d : D) (q : ℚ) : D := d.map (fun a => a / q)

/-- std::to_string on a double: fixed notation with six decimal places.
The rational stand-in rounds half up on the magnitude; the binary rounding of
the C++ library differs in the last digit on ties, which no claim exercises. -/
def dToString6 : D → String
  | none => "nan"
  | some q =>
    let n : ℕ := (Int.toNat ⌊|q| * 1000000 + 1 / 2⌋)
    let ip := n / 1000000
    let fp := n % 1000000
    let fs := toString fp
    let pad := String.mk (List.replicate (6 - fs.length) '0')
    (if q < 0 then "-" else "") ++ toString ip ++ "." ++ pad ++ fs

/-- Atom from src/atom.cpp: tagged scalar.  As in the source, symbols and
strings share the `symbol` constructor; a stored text beginning with a double
quote is a string, anything else is a symbol. -/
inductive Atom where
  | none
  | number (v : D)
  | complex (re im : D)
  | symbol (s : String)
deriving DecidableEq

/-- Atom::isNone. -/
def Atom.isNone : Atom → Bool
  | .none => true
  | _ => false

/-- Atom::isNumber. -/
def Atom.isNumber : Atom → Bool
  | .number _ => true
  | _ => false

/-- Atom::isComplex. -/
def Atom.isComplex : Atom → Bool
  | .complex _ _ => true
  | _ => false

/-- Atom::isSymbol: symbol-kind storage whose first byte is not a quote.
On the empty string the source reads the terminating NUL, which is not a
quote; the default argument below reproduces that outcome. -/
def Atom.isSymbol : Atom → Bool
  | .symbol s => !(s.data.headD 'x' == '"')
  | _ => false

/-- Atom::isString: symbol-kind storage whose first byte is a quote. -/
def Atom.isString : Atom → Bool
  | .symbol s => s.data.headD 'x' == '"'
  | _ => false

/-- Atom::asNumber: the value for numbers, the real part for complexes,
0.0 otherwise. -/
def Atom.asNumber : Atom → D
  | .number v => v
  | .complex re _ => re
  | _ => some 0

/-- Atom::asSymbol: the stored text with every quote character removed;
the empty string for the other variants. -/
def Atom.asSymbol : Atom → String
  | .symbol s => String.mk (s.data.filter (fun c => !(c == '"')))
  | _ => ""

/-- Atom::asString: the stored text for symbol-kind atoms.  The numeric
branches use iostream formatting in the source; they are not reached by any
claim and are rendered with the fixed-notation helper here. -/
def Atom.asString : Atom → String
  | .symbol s => s
  | .number v => dToString6 v
  | .complex re im => "(" ++ dToString6 re ++ "," ++ dToString6 im ++ ")"
  | .none => ""

/-- Atom::operator== from src/atom.cpp lines 165-203.  Numbers compare by
absolute difference against twice the machine epsilon with an explicit NaN
test; the complex branch performs the same componentwise comparison but has
no NaN test, so a NaN difference (for which the IEEE > comparison is false)
does not veto equality. -/
def atomEq : Atom → Atom → Bool
  | .none, .none => true
  | .number a, .number b =>
    let diff := dabs (dsub a b)
    !(disnan diff || dgtc diff (deps * 2))
  | .symbol s1, .symbol s2 => s1 == s2
  | .complex r1 i1, .complex r2 i2 =>
    !(dgtc (dabs (dsub r1 r2)) (deps * 2) || dgtc (dabs (dsub i1 i2)) (deps * 2))
  | _, _ => false

/-- ExpType from expression.hpp. -/
inductive ExpType where
  | None
  | Singleton
  | List
  | Lambda
  | Plot
deriving DecidableEq

/-- Expression from src/expression.cpp: head atom, kind tag, ordered tail,
string-keyed property map (an association list, looked up by key). -/
inductive Expression where
  | mk (head : Atom) (kind : ExpType) (tail : List Expression)
       (props : List (String × Expression))

/-- The head atom. -/
def Expression.head : Expression → Atom
  | ⟨h, _, _, _⟩ => h

/-- The kind tag. -/
def Expression.kind : Expression → ExpType
  | ⟨_, k, _, _⟩ => k

/-- The ordered children. -/
def Expression.tail : Expression → List Expression
  | ⟨_, _, t, _⟩ => t

/-- The property map. -/
def Expression.props : Expression → List (String × Expression)
  | ⟨_, _, _, p⟩ => p

/-- Expression(): the default None-kind expression. -/
def noneExp : Expression := ⟨.none, .None, [], []⟩

/-- Expression(const Atom &): a Singleton leaf. -/
def ofAtom (a : Atom) : Expression := ⟨a, .Singleton, [], []⟩

/-- Expression(const std::vector<Expression> &): a List; the head stays the
default None atom. -/
def listExp (items : List Expression) : Expression := ⟨.none, .List, items, []⟩

/-- The Lambda constructor: first child the argument-template List, second
child the body. -/
def lambdaExp (args : List Expression) (body : Expression) : Expression :=
  ⟨.none, .Lambda, [listExp args, body], []⟩

/-- The Plot constructor: kind Plot, a "type" property, the data as tail. -/
def plotExp (ty : String) (data : List Expression) : Expression :=
  ⟨.none, .Plot, data, [("type", ofAtom (.symbol ty))]⟩

/-- Expression::isList. -/
def Expression.isList (e : Expression) : Bool := e.kind == .List

/-- Expression::isLambda. -/
def Expression.isLambda (e : Expression) : Bool := e.kind == .Lambda

/-- Expression::isEmpty: the unset kind. -/
def Expression.isEmpty (e : Expression) : Bool := e.kind == .None

/-- Expression::__getProperty: the stored property, or a default None
expression when the key is absent. -/
def Expression.getProperty (e : Expression) (key : String) : Expression :=
  match e.props.lookup key with
  | some v => v
  | _ => noneExp

/-- Map assignment m_properties[key] = value, as performed by
handle_set_property: erase any entry under the key, then store the value. -/
def withPropSet (key : String) (value : Expression) (e : Expression) : Expression :=
  ⟨e.head, e.kind, e.tail, (key, value) :: e.props.filter (fun p => !(p.1 == key))⟩

mutual

/-- Expression::operator== from src/expression.cpp lines 761-776: head atoms
compared with Atom::operator==, tail lengths compared, then children pairwise;
the kind tag and the property map are not consulted. -/
def expEq : Expression → Expression → Bool
  | ⟨h1, _, t1, _⟩, ⟨h2, _, t2, _⟩ =>
    (atomEq h1 h2 && t1.length == t2.length) && expEqList t1 t2

/-- The pairwise loop of Expression::operator==; it runs over the common
prefix, which is the whole of both lists whenever the length test held. -/
def expEqList : List Expression → List Expression → Bool
  | a :: as, b :: bs => expEq a b && expEqList as bs
  | _, _ => true

end

/-- An environment entry: a built-in procedure (identified by its name, the
stand-in for the function pointer) or a bound expression.
Modelled from the spec: section 3, Environment (the environment source file is
not part of src/). -/
inductive EnvEntry where
  | proc (name : String)
  | exp (e : Expression)

/-- Modelled from the spec: the Environment is a mapping from symbol text to
entry; an association list looked up front to back, so that an insertion at
the front rebinds. -/
abbrev Environment := List (String × EnvEntry)

/-- Lookup by symbol text. -/
def envLookup (env : Environment) (s : String) : Option EnvEntry :=
  List.lookup s env

/-- Modelled from the spec (4.3): is_exp is true iff the symbol is bound to an
expression. -/
def is_exp (env : Environment) (a : Atom) : Bool :=
  a.isSymbol &&
    match envLookup env a.asSymbol with
    | some (.exp _) => true
    | _ => false

/-- Modelled from the spec (4.3): is_proc is true iff the entry is a built-in
procedure. -/
def is_proc (env : Environment) (a : Atom) : Bool :=
  a.isSymbol &&
    match envLookup env a.asSymbol with
    | some (.proc _) => true
    | _ => false

/-- Modelled from the spec (4.3): get_exp returns the bound expression.  It is
total, returning a default None expression when the symbol is unbound: the
evaluator in src/ calls get_exp on arbitrary heads (apply, lines 138-140)
before testing for a lambda, so a failing get_exp would break every built-in
call that the spec requires to succeed. -/
def get_exp (env : Environment) (a : Atom) : Expression :=
  if a.isSymbol then
    match envLookup env a.asSymbol with
    | some (.exp e) => e
    | _ => noneExp
  else noneExp

/-- Modelled from the spec (4.3): shadow rebinds unconditionally in the
current scope; on the association list this is insertion at the front. -/
def shadow (env : Environment) (a : Atom) (e : Expression) : Environment :=
  (a.asSymbol, .exp e) :: env

/-- Modelled from the spec (4.3): add_exp binds or rebinds; same map update
as shadow, the difference being only the discipline imposed on callers. -/
def add_exp (env : Environment) (a : Atom) (e : Expression) : Environment :=
  (a.asSymbol, .exp e) :: env

/-- The shadowing loop of apply (src/expression.cpp lines 150-153): shadow
each parameter-template entry head with the corresponding argument, first to
last. -/
def shadowParams : Environment → List Expression → List Expression → Environment
  | env, p :: ps, a :: as => shadowParams (shadow env p.head a) ps as
  | env, _, _ => env

/-- Real part of an atom viewed as a complex number (Atom::asComplex). -/
def asComplexRe : Atom → D
  | .number v => v
  | .complex re _ => re
  | _ => some 0

/-- Imaginary part of an atom viewed as a complex number (Atom::asComplex). -/
def asComplexIm : Atom → D
  | .complex _ im => im
  | _ => some 0

/-- A numeric operand: a number or complex atom heading a leaf. -/
def isNumericArg (e : Expression) : Bool :=
  e.head.isNumber || e.head.isComplex

/-- A point expression as built by the make-point procedure.
Modelled from the spec (4.4): a List of the two arguments with properties
object-name = "point" and size = 0; property keys keep their quotes. -/
def mkPointExp (a b : Expression) : Expression :=
  ⟨.none, .List, [a, b],
    [("\"object-name\"", ofAtom (.symbol "\"point\"")),
     ("\"size\"", ofAtom (.number (some 0)))]⟩

/-- A line expression as built by the make-line procedure.
Modelled from the spec (4.4): a List of the two points with properties
object-name = "line" and thickness = 1. -/
def mkLineExp (a b : Expression) : Expression :=
  ⟨.none, .List, [a, b],
    [("\"object-name\"", ofAtom (.symbol "\"line\"")),
     ("\"thickness\"", ofAtom (.number (some 1)))]⟩

/-- Modelled from the spec (4.4): the built-in procedure table.  Procedures
whose results are irrational-valued (sqrt, ^, ln, sin, cos, tan, mag, arg)
and range are outside the exact-rational double model; they are present in
the environment (their names are reserved) but their application reports an
unmodelled-procedure error, and no claim applies them. -/
def applyProc : String → List Expression → Except String Expression
  | "list", args => .ok (listExp args)
  | "first", args =>
    match args with
    | [l] =>
      if l.isList then
        match l.tail with
        | x :: _ => .ok x
        | [] => .error "Error: argument to first is an empty list"
      else .error "Error: argument to first is not a list"
    | _ => .error "Error: invalid number of arguments in call to first"
  | "rest", args =>
    match args with
    | [l] =>
      if l.isList then
        match l.tail with
        | _ :: xs => .ok (listExp xs)
        | [] => .error "Error: argument to rest is an empty list"
      else .error "Error: argument to rest is not a list"
    | _ => .error "Error: invalid number of arguments in call to rest"
  | "length", args =>
    match args with
    | [l] =>
      if l.isList then .ok (ofAtom (.number (some l.tail.length)))
      else .error "Error: argument to length is not a list"
    | _ => .error "Error: invalid number of arguments in call to length"
  | "append", args =>
    match args with
    | [l, x] =>
      if l.isList then .ok (listExp (l.tail ++ [x]))
      else .error "Error: first argument to append is not a list"
    | _ => .error "Error: invalid number of arguments in call to append"
  | "join", args =>
    match args with
    | [a, b] =>
      if a.isList && b.isList then .ok (listExp (a.tail ++ b.tail))
      else .error "Error: argument to join is not a list"
    | _ => .error "Error: invalid number of arguments in call to join"
  | "+", args =>
    if args.all isNumericArg then
      if args.any (fun e => e.head.isComplex) then
        .ok (ofAtom (.complex
          (args.foldl (fun acc e => dadd acc (asComplexRe e.head)) (some 0))
          (args.foldl (fun acc e => dadd acc (asComplexIm e.head)) (some 0))))
      else
        .ok (ofAtom (.number
          (args.foldl (fun acc e => dadd acc e.head.asNumber) (some 0))))
    else .error "Error in call to add, argument not a number"
  | "*", args =>
    if args.all isNumericArg then
      if args.any (fun e => e.head.isComplex) then
        let z := args.foldl (fun acc e =>
          (dsub (dmul acc.1 (asComplexRe e.head)) (dmul acc.2 (asComplexIm e.head)),
           dadd (dmul acc.1 (asComplexIm e.head)) (dmul acc.2 (asComplexRe e.head))))
          ((some 1 : D), (some 0 : D))
        .ok (ofAtom (.complex z.1 z.2))
      else
        .ok (ofAtom (.number
          (args.foldl (fun acc e => dmul acc e.head.asNumber) (some 1))))
    else .error "Error in call to mul, argument not a number"
  | "make-point", args =>
    match args with
    | [a, b] =>
      if a.head.isNumber && b.head.isNumber then .ok (mkPointExp a b)
      else .error "Error: arguments to make-point not numbers"
    | _ => .error "Error: invalid number of arguments in call to make-point"
  | "make-line", args =>
    match args with
    | [a, b] => .ok (mkLineExp a b)
    | _ => .error "Error: invalid number of arguments in call to make-line"
  | "make-text", args =>
    match args with
    | [t] =>
      if t.head.isString then
        .ok ⟨t.head, .Singleton, [],
          [("\"object-name\"", ofAtom (.symbol "\"text\"")),
           ("\"position\"",
             mkPointExp (ofAtom (.number (some 0))) (ofAtom (.number (some 0)))),
           ("\"text-scale\"", ofAtom (.number (some 1))),
           ("\"text-rotation\"", ofAtom (.number (some 0)))]⟩
      else .error "Error: argument to make-text not a string"
    | _ => .error "Error: invalid number of arguments in call to make-text"
  | "real", args =>
    match args with
    | [c] =>
      if c.head.isComplex then .ok (ofAtom (.number (asComplexRe c.head)))
      else .error "Error: argument to real not complex"
    | _ => .error "Error: invalid number of arguments in call to real"
  | "imag", args =>
    match args with
    | [c] =>
      if c.head.isComplex then .ok (ofAtom (.number (asComplexIm c.head)))
      else .error "Error: argument to imag not complex"
    | _ => .error "Error: invalid number of arguments in call to imag"
  | "conj", args =>
    match args with
    | [c] =>
      if c.head.isComplex then
        .ok (ofAtom (.complex (asComplexRe c.head) (dneg (asComplexIm c.head))))
      else .error "Error: argument to conj not complex"
    | _ => .error "Error: invalid number of arguments in call to conj"
  | "-", args =>
    match args with
    | [a] =>
      if a.head.isComplex then
        .ok (ofAtom (.complex (dneg (asComplexRe a.head)) (dneg (asComplexIm a.head))))
      else if a.head.isNumber then .ok (ofAtom (.number (dneg a.head.asNumber)))
      else .error "Error in call to negate: invalid argument"
    | [a, b] =>
      if isNumericArg a && isNumericArg b then
        if a.head.isComplex || b.head.isComplex then
          .ok (ofAtom (.complex (dsub (asComplexRe a.head) (asComplexRe b.head))
            (dsub (asComplexIm a.head) (asComplexIm b.head))))
        else .ok (ofAtom (.number (dsub a.head.asNumber b.head.asNumber)))
      else .error "Error in call to subtraction: invalid argument"
    | _ => .error "Error in call to subtraction or negation: invalid number of arguments"
  | _, _ => .error "Error: procedure not modelled by this development"

/-- Modelled from the spec (4.4): the names of the built-in procedures. -/
def procNames : List String :=
  ["+", "-", "*", "/", "sqrt", "^", "ln", "sin", "cos", "tan",
   "real", "imag", "mag", "arg", "conj",
   "list", "first", "rest", "length", "append", "join", "range",
   "make-point", "make-line", "make-text"]

/-- Modelled from the spec (3 and 4.4): the default environment binds the
constants pi, e (rational stand-ins for the double constants; no claim
depends on their values) and I, and every built-in procedure name.  The
special forms begin, define, lambda, apply, map, set-property, get-property,
discrete-plot and continuous-plot are dispatched by the evaluator and have no
environment entry; the reservation the spec attributes to the environment has
no carrier in its operation list (4.3 places the refusal in callers). -/
def defaultEnv : Environment :=
  ("pi", .exp (ofAtom (.number (some (3141592653589793 / 1000000000000000))))) ::
  ("e", .exp (ofAtom (.number (some (2718281828459045 / 1000000000000000))))) ::
  ("I", .exp (ofAtom (.complex (some 0) (some 1)))) ::
  procNames.map (fun n => (n, EnvEntry.proc n))

/-- Outcome of evaluating one expression: a value with the environment as
left by the evaluation, a thrown SemanticError message with the environment
as left at the throw (C++ exceptions do not roll the environment back), or
fuel exhaustion of the model. -/
inductive Res where
  | ok (e : Expression) (env : Environment)
  | err (msg : String) (env : Environment)
  | spin

/-- Outcome of evaluating a sequence of expressions left to right. -/
inductive LRes where
  | ok (es : List Expression) (env : Environment)
  | err (msg : String) (env : Environment)
  | spin

/-- Outcome of the free function apply, which receives the environment by
const reference and cannot change the caller's copy. -/
inductive PRes where
  | ok (e : Expression)
  | err (msg : String)
  | spin

/-- Sequencing for PRes computations. -/
def PRes.bind : PRes → (Expression → PRes) → PRes
  | .ok e, f => f e
  | .err m, _ => .err m
  | .spin, _ => .spin

/-- Outcome of a loop building a list of expressions without touching the
environment. -/
inductive PLRes where
  | ok (es : List Expression) | err (msg : String) | spin

/-- Drop the (unchanged) environment from an evaluation outcome. -/
def toPRes : Res → PRes
  | .ok e _ => .ok e
  | .err m _ => .err m
  | .spin => .spin

/-- The evaluation of children left to right shared by handle_list and the
default procedure-call branch of eval, threading the mutable environment. -/
def evalSeq (ev : Expression → Environment → Res) :
    List Expression → Environment → LRes
  | [], env => .ok [] env
  | e :: es, env =>
    match ev e env with
    | .ok r env1 =>
      match evalSeq ev es env1 with
      | .ok rs env2 => .ok (r :: rs) env2
      | .err m env2 => .err m env2
      | .spin => .spin
    | .err m env1 => .err m env1
    | .spin => .spin

/-- apply from src/expression.cpp lines 138-173: a lambda bound to the head
is applied by copying the environment, shadowing each template parameter with
the corresponding argument and evaluating the body in the copy; otherwise the
head must be a symbol naming a procedure, which is called on the arguments.
The caller's environment is received by const reference, hence unchanged. -/
def applyFn (ev : Expression → Environment → Res) (op : Atom)
    (args : List Expression) (env : Environment) : PRes :=
  let lam := get_exp env op
  if lam.isLambda then
    let tmpl := lam.tail.getD 0 noneExp
    if args.length ≠ tmpl.tail.length then
      .err "Error: during apply: Error in call to procedure: invalid number of arguments."
    else
      toPRes (ev (lam.tail.getLastD noneExp) (shadowParams env tmpl.tail args))
  else if !op.isSymbol then .err "Error during evaluation: not a symbol"
  else if !is_proc env op then
    .err "Error during evaluation: symbol does not name a procedure"
  else
    match envLookup env op.asSymbol with
    | some (.proc p) =>
      match applyProc p args with
      | .ok e => .ok e
      | .error m => .err m
    | _ => .err "Error during evaluation: symbol does not name a procedure"

/-- Expression::handle_lookup, src/expression.cpp lines 175-191. -/
def handle_lookup (head : Atom) (env : Environment) : Res :=
  if head.isSymbol then
    if is_exp env head then .ok (get_exp env head) env
    else .err ("Error during handle lookup: unknown symbol " ++ head.asString) env
  else if head.isNumber || head.isComplex || head.isString then
    .ok (ofAtom head) env
  else .err "Error during handle lookup: Invalid type in terminal expression" env

/-- The loop of handle_begin: evaluate each child in order, keeping the last
result; the accumulator starts as a default None expression. -/
def beginLoop (ev : Expression → Environment → Res) :
    Expression → List Expression → Environment → Res
  | acc, [], env => .ok acc env
  | _, e :: es, env =>
    match ev e env with
    | .ok r env1 => beginLoop ev r es env1
    | .err m env1 => .err m env1
    | .spin => .spin

/-- Expression::handle_begin, src/expression.cpp lines 193-202. -/
def handle_begin (ev : Expression → Environment → Res)
    (tail : List Expression) (env : Environment) : Res :=
  beginLoop ev noneExp tail env

/-- Expression::handle_define, src/expression.cpp lines 204-236. -/
def handle_define (ev : Expression → Environment → Res)
    (tail : List Expression) (env : Environment) : Res :=
  if tail.length ≠ 2 then
    .err "Error during handle define: invalid number of arguments to define" env
  else
    let t0 := tail.getD 0 noneExp
    if !t0.head.isSymbol then
      .err "Error during handle define: first argument to define not symbol" env
    else
      let s := t0.head.asSymbol
      if s = "define" ∨ s = "begin" ∨ s = "lambda" ∨ s = "list" then
        .err "Error during handle define: attempt to redefine a special-form" env
      else if is_proc env t0.head then
        .err "Error during handle define: attempt to redefine a built-in procedure" env
      else if s = "pi" ∨ s = "e" ∨ s = "I" then
        .err "Error during handle define: attempt to redefine a built-in symbol" env
      else
        match ev (tail.getD 1 noneExp) env with
        | .ok r env1 => .ok r (add_exp env1 t0.head r)
        | .err m env1 => .err m env1
        | .spin => .spin

/-- Expression::handle_list, src/expression.cpp lines 238-246. -/
def handle_list (ev : Expression → Environment → Res)
    (tail : List Expression) (env : Environment) : Res :=
  match evalSeq ev tail env with
  | .ok items env1 => .ok (listExp items) env1
  | .err m env1 => .err m env1
  | .spin => .spin

/-- Expression::handle_lambda, src/expression.cpp lines 248-258: the template
is the first child's head followed by its tail, the body the second child,
neither evaluated.  An out-of-range child access is undefined behaviour in
the source; the total default here is never exercised by a claim. -/
def handle_lambda (tail : List Expression) (env : Environment) : Res :=
  let t0 := tail.getD 0 noneExp
  .ok (lambdaExp (ofAtom t0.head :: t0.tail) (tail.getD 1 noneExp)) env

/-- Expression::handle_apply, src/expression.cpp lines 260-286. -/
def handle_apply (ev : Expression → Environment → Res)
    (tail : List Expression) (env : Environment) : Res :=
  if tail.length ≠ 2 then
    .err "Error during apply: invalid number of arguments" env
  else
    let t0 := tail.getD 0 noneExp
    let op := t0.head
    if !(get_exp env op).isLambda && (!is_proc env op || t0.tail.length > 0) then
      .err "Error: first argument to apply not a procedure" env
    else
      match ev (tail.getD 1 noneExp) env with
      | .ok arguments env1 =>
        if !arguments.isList then
          .err "Error: second argument to apply not a list" env1
        else
          match applyFn ev op arguments.tail env1 with
          | .ok r => .ok r env1
          | .err m => .err m env1
          | .spin => .spin
      | .err m env1 => .err m env1
      | .spin => .spin

/-- The per-element loop of handle_map: each element is passed alone to
apply; the environment is not changed by the applications. -/
def mapLoop (ev : Expression → Environment → Res) (op : Atom)
    (env : Environment) : List Expression → PLRes
  | [] => .ok []
  | e :: es =>
    match applyFn ev op [e] env with
    | .ok r =>
      match mapLoop ev op env es with
      | .ok rs => .ok (r :: rs)
      | .err m => .err m
      | .spin => .spin
    | .err m => .err m
    | .spin => .spin

/-- Expression::handle_map, src/expression.cpp lines 288-321; the message for
a non-list second argument says apply, as in the source. -/
def handle_map (ev : Expression → Environment → Res)
    (tail : List Expression) (env : Environment) : Res :=
  if tail.length ≠ 2 then
    .err "Error during map: invalid number of arguments" env
  else
    let t0 := tail.getD 0 noneExp
    let op := t0.head
    if !(get_exp env op).isLambda && (!is_proc env op || t0.tail.length > 0) then
      .err "Error: first argument to map not a procedure" env
    else
      match ev (tail.getD 1 noneExp) env with
      | .ok listEvaled env1 =>
        if !listEvaled.isList then
          .err "Error: second argument to apply not a list" env1
        else
          match mapLoop ev op env1 listEvaled.tail with
          | .ok rs => .ok (listExp rs) env1
          | .err m => .err m env1
          | .spin => .spin
      | .err m env1 => .err m env1
      | .spin => .spin

/-- Expression::handle_set_property, src/expression.cpp lines 323-347: the
target (third child) is evaluated before the value (second child); the key is
the unevaluated first child's stored string, quotes included. -/
def handle_set_property (ev : Expression → Environment → Res)
    (tail : List Expression) (env : Environment) : Res :=
  if tail.length = 3 then
    let t0 := tail.getD 0 noneExp
    if t0.head.isString then
      match ev (tail.getD 2 noneExp) env with
      | .ok result env1 =>
        match ev (tail.getD 1 noneExp) env1 with
        | .ok value env2 => .ok (withPropSet t0.head.asString value result) env2
        | .err m env2 => .err m env2
        | .spin => .spin
      | .err m env1 => .err m env1
      | .spin => .spin
    else .err "Error: first argument to set-property not a string." env
  else .err "Error invalid number of arguments for set-property." env

/-- Expression::handle_get_property, src/expression.cpp lines 349-364. -/
def handle_get_property (ev : Expression → Environment → Res)
    (tail : List Expression) (env : Environment) : Res :=
  if tail.length = 2 then
    match ev (tail.getD 1 noneExp) env with
    | .ok target env1 =>
      let t0 := tail.getD 0 noneExp
      if t0.head.isString then .ok (target.getProperty t0.head.asString) env1
      else .err "Error: first argument to get-property not a string." env1
    | .err m env1 => .err m env1
    | .spin => .spin
  else .err "Error: invalid number of arguments for get-property." env

/-- The point constructions of handle_discrete_plot: apply make-point to two
freshly built number leaves. -/
def mkpt (ev : Expression → Environment → Res) (env : Environment)
    (x y : D) : PRes :=
  applyFn ev (.symbol "make-point") [ofAtom (.number x), ofAtom (.number y)] env

/-- The line constructions of handle_discrete_plot: apply make-line to two
point expressions. -/
def mkln (ev : Expression → Environment → Res) (env : Environment)
    (a b : Expression) : PRes :=
  applyFn ev (.symbol "make-line") [a, b] env

/-- The data-point and stem-line loop of handle_discrete_plot
(src/expression.cpp lines 455-465): for each data point, build the (y-negated)
point, the stem bottom at the common stem-bottom ordinate, the stem line, and
push point then stem line. -/
def stemLoop (ev : Expression → Environment → Res) (env : Environment)
    (sb : D) : List Expression → PLRes
  | [] => .ok []
  | p :: ps =>
    let x := (p.tail.getD 0 noneExp).head.asNumber
    let y := dneg ((p.tail.getD 1 noneExp).head.asNumber)
    match mkpt ev env x y with
    | .ok np =>
      match mkpt ev env x sb with
      | .ok sbp =>
        match mkln ev env np sbp with
        | .ok sl =>
          match stemLoop ev env sb ps with
          | .ok rest => .ok (np :: sl :: rest)
          | .err m => .err m
          | .spin => .spin
        | .err m => .err m
        | .spin => .spin
      | .err m => .err m
      | .spin => .spin
    | .err m => .err m
    | .spin => .spin

/-- Expression::handle_discrete_plot, src/expression.cpp lines 374-489:
evaluate both arguments, require lists, sweep the data for extrema starting
from the sentinels (-999, 999), build the bounding-box corner points and the
four box lines, push the four extremum labels as quoted fixed-notation
strings, push each option's second child, push data points with stem lines,
conditionally push the two axis lines, and wrap everything as a Plot carrying
type, numpoints and numoptions properties. -/
def handle_discrete_plot (ev : Expression → Environment → Res)
    (tail : List Expression) (env : Environment) : Res :=
  if tail.length ≠ 2 then
    .err "Error: invalid number of arguments for discrete-plot" env
  else
    match ev (tail.getD 0 noneExp) env with
    | .err m env1 => .err m env1
    | .spin => .spin
    | .ok DATA env1 =>
      match ev (tail.getD 1 noneExp) env1 with
      | .err m env2 => .err m env2
      | .spin => .spin
      | .ok OPTIONS env2 =>
        if !DATA.isList || !OPTIONS.isList then
          .err "Error: An argument to discrete-plot is not a list" env2
        else
          let numpoints := DATA.tail.length
          let xs := DATA.tail.map (fun p => (p.tail.getD 0 noneExp).head.asNumber)
          let ys := DATA.tail.map (fun p => (p.tail.getD 1 noneExp).head.asNumber)
          let xmax := xs.foldl (fun acc v => dmax v acc) (some (-999))
          let xmin := xs.foldl (fun acc v => dmin v acc) (some 999)
          let ymax := ys.foldl (fun acc v => dmax v acc) (some (-999))
          let ymin := ys.foldl (fun acc v => dmin v acc) (some 999)
          let AL := xmin
          let AU := xmax
          let OL := ymin
          let OU := ymax
          let xmiddle := ddivC (dadd xmax xmin) 2
          let ymiddle := ddivC (dsub ymin ymax) 2
          let built :=
            PRes.bind (mkpt ev env2 xmin ymax) fun topLeft =>
            PRes.bind (mkpt ev env2 xmiddle ymax) fun _ =>
            PRes.bind (mkpt ev env2 xmax ymax) fun topRight =>
            PRes.bind (mkpt ev env2 xmin ymiddle) fun _ =>
            PRes.bind (mkpt ev env2 xmiddle ymiddle) fun _ =>
            PRes.bind (mkpt ev env2 xmax ymiddle) fun _ =>
            PRes.bind (mkpt ev env2 xmin ymin) fun botLeft =>
            PRes.bind (mkpt ev env2 xmiddle ymin) fun _ =>
            PRes.bind (mkpt ev env2 xmax ymin) fun botRight =>
            PRes.bind (mkln ev env2 topLeft botLeft) fun leftLine =>
            PRes.bind (mkln ev env2 topRight botRight) fun rightLine =>
            PRes.bind (mkln ev env2 topLeft topRight) fun topLine =>
            PRes.bind (mkln ev env2 botLeft botRight) fun botLine =>
            let labels :=
              [ofAtom (.symbol ("\"" ++ dToString6 AL ++ "\"")),
               ofAtom (.symbol ("\"" ++ dToString6 AU ++ "\"")),
               ofAtom (.symbol ("\"" ++ dToString6 OL ++ "\"")),
               ofAtom (.symbol ("\"" ++ dToString6 OU ++ "\""))]
            let optExps := OPTIONS.tail.map (fun opt => opt.tail.getD 1 noneExp)
            let stembottomy := dneg (dmax (some 0) ymin)
            match stemLoop ev env2 stembottomy DATA.tail with
            | .err m => .err m
            | .spin => .spin
            | .ok stems =>
              let xaxisPart :=
                if dlt (some 0) OU || dlt OL (some 0) then
                  PRes.bind (mkpt ev env2 xmax (some 0)) fun s1 =>
                  PRes.bind (mkpt ev env2 xmin (some 0)) fun s2 =>
                  PRes.bind (mkln ev env2 s1 s2) fun ax => .ok (listExp [ax])
                else .ok (listExp [])
              PRes.bind xaxisPart fun xaxes =>
              let yaxisPart :=
                if dlt (some 0) AU || dlt AL (some 0) then
                  PRes.bind (mkpt ev env2 (some 0) ymax) fun s1 =>
                  PRes.bind (mkpt ev env2 (some 0) ymin) fun s2 =>
                  PRes.bind (mkln ev env2 s1 s2) fun ax => .ok (listExp [ax])
                else .ok (listExp [])
              PRes.bind yaxisPart fun yaxes =>
              let children :=
                [leftLine, rightLine, topLine, botLine] ++ labels ++ optExps ++
                  stems ++ xaxes.tail ++ yaxes.tail
              PRes.ok (withPropSet "numoptions"
                (ofAtom (.number (some OPTIONS.tail.length)))
                (withPropSet "numpoints" (ofAtom (.number (some numpoints)))
                  (plotExp "DP" children)))
          match built with
          | .ok dp => .ok dp env2
          | .err m => .err m env2
          | .spin => .spin

/-- Expression::handle_cont_plot, src/expression.cpp lines 491-683: the arity
and argument-kind checks run, and then a default-constructed (None-kind,
propertyless, childless) Expression is returned; the whole plot construction
is commented out in the source. -/
def handle_cont_plot (ev : Expression → Environment → Res)
    (tail : List Expression) (env : Environment) : Res :=
  if tail.length ≠ 2 ∧ tail.length ≠ 3 then
    .err "Error: invalid number of arguments for continuous plot" env
  else
    match ev (tail.getD 0 noneExp) env with
    | .err m env1 => .err m env1
    | .spin => .spin
    | .ok FUNC env1 =>
      if !FUNC.isLambda then
        .err "Error: first argument to continuous plot not a lambda" env1
      else
        match ev (tail.getD 1 noneExp) env1 with
        | .err m env2 => .err m env2
        | .spin => .spin
        | .ok BOUNDS env2 =>
          if !BOUNDS.isList then
            .err "Error: second argument to continuous plot not a list" env2
          else
            if tail.length = 3 then
              match ev (tail.getD 2 noneExp) env2 with
              | .err m env3 => .err m env3
              | .spin => .spin
              | .ok OPTS env3 =>
                if !OPTS.isList then
                  .err "Error: third argument to continuous plot not a list" env3
                else .ok noneExp env3
            else .ok noneExp env2

/-- Expression::eval, src/expression.cpp lines 687-732, with the process-wide
interrupt flag passed as the `flag` argument (it is a global sig_atomic_t in
the source; the model holds it fixed for the duration of one evaluation) and
a fuel argument making the recursion total: `Res.spin` reports fuel
exhaustion of the model, never a behaviour of the source.  Dispatch order:
the interrupt test, the `list` head (by quote-stripped symbol text), the
empty-tail lookup, the remaining special forms, and finally the default
branch evaluating every child left to right and applying the head. -/
def evalE : Nat → Nat → Expression → Environment → Res
  | 0, _, _, _ => .spin
  | Nat.succ fuel, flag, e, env =>
    let ev := evalE fuel flag
    if flag > 0 then .err "Error: interpreter kernal interupted" env
    else if e.head.asSymbol = "list" then handle_list ev e.tail env
    else if e.tail.isEmpty then handle_lookup e.head env
    else if e.head.asSymbol = "begin" then handle_begin ev e.tail env
    else if e.head.asSymbol = "define" then handle_define ev e.tail env
    else if e.head.asSymbol = "lambda" then handle_lambda e.tail env
    else if e.head.asSymbol = "apply" then handle_apply ev e.tail env
    else if e.head.asSymbol = "map" then handle_map ev e.tail env
    else if e.head.asSymbol = "set-property" then handle_set_property ev e.tail env
    else if e.head.asSymbol = "get-property" then handle_get_property ev e.tail env
    else if e.head.asSymbol = "discrete-plot" then handle_discrete_plot ev e.tail env
    else if e.head.asSymbol = "continuous-plot" then handle_cont_plot ev e.tail env
    else
      match evalSeq ev e.tail env with
      | .ok results env1 =>
        match applyFn ev e.head results env1 with
        | .ok r => .ok r env1
        | .err m => .err m env1
        | .spin => .spin
      | .err m env1 => .err m env1
      | .spin => .spin

/-- A node as produced by the parser: Expression(Atom) followed by append
calls, so the kind tag is Singleton and the property map empty. -/
def pnode (a : Atom) (children : List Expression) : Expression :=
  ⟨a, .Singleton, children, []⟩

/-- Shorthand for a parsed number literal node. -/
def numE (q : ℚ) : Expression := pnode (.number (some q)) []

/-- Shorthand for a parsed bare-symbol node. -/
def symE (s : String) : Expression := pnode (.symbol s) []

/-- C7 (counterexample): with the interrupt flag raised, evaluation fails
with the message of the source, "Error: interpreter kernal interupted",
which is not the message "interpreter kernel interrupted" stated by the
claim. -/
theorem c7_counterexample :
    evalE 1 1 (numE 0) defaultEnv =
      .err "Error: interpreter kernal interupted" defaultEnv ∧
    "Error: interpreter kernal interupted" ≠ "interpreter kernel interrupted" := by
  exact ⟨rfl, by decide⟩

/-- C7 (amended): the interrupt flag is polled at the top of every evaluation
step; whenever it is positive on entry, evaluation of any expression in any
environment fails immediately with the semantic error "Error: interpreter
kernal interupted" (spelling as in the source), leaving the environment
untouched. -/
theorem c7_interrupt (n flag : Nat) (e : Expression) (env : Environment)
    (h : 0 < flag) :
    evalE (n + 1) flag e env =
      .err "Error: interpreter kernal interupted" env := by
  simp only [evalE]
  rw [if_pos h]

/-- C7 witness: the interrupt theorem applied at a concrete input. -/
theorem c7_witness :
    evalE 3 1 (symE "x") defaultEnv =
      .err "Error: interpreter kernal interupted" defaultEnv :=
  c7_interrupt 2 1 (symE "x") defaultEnv (by decide)

/-- C9 (counterexample): a comparison of complex atoms in which one real part
is NaN (so the componentwise difference is NaN) returns true, not the false
required by the claim for every NaN comparison. -/
theorem c9_counterexample :
    atomEq (.complex none (some 0)) (.complex (some 5) (some 0)) = true := by
  with_unfolding_all rfl

/-- C9 (amended): number atoms are equal exactly when the absolute difference
is within twice the machine epsilon and never when a NaN is involved; complex
atoms are equal exactly when both componentwise differences are within twice
the machine epsilon under the IEEE > comparison, which is false on NaN, so a
NaN component difference never vetoes complex equality (there is no NaN test
in the complex branch of the source). -/
theorem c9_atom_equality :
    (∀ x y : ℚ, atomEq (.number (some x)) (.number (some y)) = true ↔
      |x - y| ≤ deps * 2) ∧
    (∀ d : D, atomEq (.number Option.none) (.number d) = false ∧
      atomEq (.number d) (.number Option.none) = false) ∧
    (∀ r1 i1 r2 i2 : ℚ,
      atomEq (.complex (some r1) (some i1)) (.complex (some r2) (some i2)) = true ↔
        (|r1 - r2| ≤ deps * 2 ∧ |i1 - i2| ≤ deps * 2)) ∧
    (∀ i r : ℚ, atomEq (.complex Option.none (some i)) (.complex (some r) (some i)) = true) := by
  refine ⟨fun x y => ?_, fun d => ⟨by cases d <;> rfl, by cases d <;> rfl⟩,
    fun r1 i1 r2 i2 => ?_, fun i r => ?_⟩
  · simp [atomEq, dsub, dabs, disnan, dgtc, not_lt]
  · simp [atomEq, dsub, dabs, disnan, dgtc, not_lt]
  · simp [atomEq, dsub, dabs, disnan, dgtc, sub_self, abs_zero]
    norm_num [deps]

/-- C9 witness: the number characterization applied at a concrete input. -/
theorem c9_witness : atomEq (.number (some 3)) (.number (some 3)) = true :=
  (c9_atom_equality.1 3 3).mpr (by norm_num [deps])

/-- C10 (counterexample): two expressions that differ only in the kind tag
but whose shared head is a NaN number atom compare unequal, because the NaN
head is not equal to itself under Atom::operator==; the claim asserts that
any two expressions differing only in kind compare equal. -/
theorem c10_counterexample :
    expEq ⟨.number Option.none, .Singleton, [], []⟩
      ⟨.number Option.none, .List, [], []⟩ = false := rfl

/-- The pairwise child loop agrees with List.Forall₂ on lists of equal
length. -/
theorem expEqList_iff_forall₂ :
    ∀ t1 t2 : List Expression, t1.length = t2.length →
      (expEqList t1 t2 = true ↔
        List.Forall₂ (fun a b => expEq a b = true) t1 t2) := by
  intro t1
  induction t1 with
  | nil =>
    intro t2 h
    cases t2 with
    | nil => simp [expEqList]
    | cons b bs => simp at h
  | cons a as ih =>
    intro t2 h
    cases t2 with
    | nil => simp at h
    | cons b bs =>
      simp only [List.length_cons, Nat.succ.injEq] at h
      simp [expEqList, Bool.and_eq_true, ih bs h, List.forall₂_cons]

/-- C10: Expression::operator== holds exactly when the head atoms are equal
under Atom::operator== and the tails have equal length with pairwise-equal
children; moreover the kind tags and property maps of the two operands do not
participate at all. -/
theorem c10_expression_equality :
    (∀ e1 e2 : Expression, expEq e1 e2 = true ↔
      (atomEq e1.head e2.head = true ∧ e1.tail.length = e2.tail.length ∧
        List.Forall₂ (fun a b => expEq a b = true) e1.tail e2.tail)) ∧
    (∀ h1 t1 h2 t2 k1 k1a p1 p1a k2 k2a p2 p2a,
      expEq ⟨h1, k1, t1, p1⟩ ⟨h2, k2, t2, p2⟩ =
      expEq ⟨h1, k1a, t1, p1a⟩ ⟨h2, k2a, t2, p2a⟩) := by
  constructor
  · rintro ⟨h1, k1, t1, p1⟩ ⟨h2, k2, t2, p2⟩
    show ((atomEq h1 h2 && t1.length == t2.length) && expEqList t1 t2) = true ↔ _
    simp only [Bool.and_eq_true, beq_iff_eq, Expression.head, Expression.tail]
    constructor
    · rintro ⟨⟨ha, hl⟩, hp⟩
      exact ⟨ha, hl, (expEqList_iff_forall₂ t1 t2 hl).mp hp⟩
    · rintro ⟨ha, hl, hp⟩
      exact ⟨⟨ha, hl⟩, (expEqList_iff_forall₂ t1 t2 hl).mpr hp⟩
  · intro h1 t1 h2 t2 k1 k1a p1 p1a k2 k2a p2 p2a
    rfl

/-- C10 witness: the characterization applied at a concrete input. -/
theorem c10_witness :
    expEq (listExp [ofAtom (.number (some 1))]) (pnode .none [numE 1]) = true :=
  (c10_expression_equality.1 (listExp [ofAtom (.number (some 1))])
    (pnode .none [numE 1])).mpr
    ⟨rfl, rfl, by
      refine List.Forall₂.cons ?_ List.Forall₂.nil
      exact (c10_expression_equality.1 _ _).mpr ⟨by with_unfolding_all rfl, rfl, List.Forall₂.nil⟩⟩

/-- An atom whose stored text starts with a quote is a string and not a
symbol. -/
theorem isSymbol_eq_false_of_isString (a : Atom) (h : a.isString = true) :
    a.isSymbol = false := by
  cases a <;> simp_all [Atom.isString, Atom.isSymbol]

/-- C1 (counterexample): an expression whose head is the string atom "list"
(quotes stored) and whose tail is empty evaluates to the empty List, not to
itself as a Singleton: the `list` dispatch tests the quote-stripped symbol
text of the head and therefore also captures the string "list".  The claim
asserts a string head with empty tail returns itself. -/
theorem c1_counterexample :
    evalE 2 0 (pnode (.symbol "\"list\"") []) defaultEnv =
      .ok (listExp []) defaultEnv ∧
    ∀ env2, evalE 2 0 (pnode (.symbol "\"list\"") []) defaultEnv ≠
      .ok (ofAtom (.symbol "\"list\"")) env2 := by
  refine ⟨rfl, fun env2 h => ?_⟩
  rw [show evalE 2 0 (pnode (.symbol "\"list\"") []) defaultEnv =
    .ok (listExp []) defaultEnv from rfl] at h
  simp [listExp, ofAtom] at h

/-- C1 (amended): for an empty-tail expression, evaluation performs
handle_lookup — a number or complex head, or a string head other than the
string "list", returns itself as a fresh Singleton; a symbol head other than
`list` returns the expression bound to it, or fails with the unknown-symbol
error when not bound to an expression; and any head (symbol or string) whose
quote-stripped text is "list" is captured by the earlier `list` dispatch and
yields the empty List. -/
theorem c1_lookup_dispatch :
    (∀ (n : Nat) k p (env : Environment) (h : Atom),
      (h.isNumber = true ∨ h.isComplex = true ∨
        (h.isString = true ∧ h.asSymbol ≠ "list")) →
      evalE (n + 1) 0 (.mk h k [] p) env = .ok (ofAtom h) env) ∧
    (∀ (n : Nat) k p (env : Environment) (a : Atom) (bexp : Expression),
      a.isSymbol = true → a.asSymbol ≠ "list" →
      envLookup env a.asSymbol = some (.exp bexp) →
      evalE (n + 1) 0 (.mk a k [] p) env = .ok bexp env) ∧
    (∀ (n : Nat) k p (env : Environment) (a : Atom),
      a.isSymbol = true → a.asSymbol ≠ "list" →
      is_exp env a = false →
      evalE (n + 1) 0 (.mk a k [] p) env =
        .err ("Error during handle lookup: unknown symbol " ++ a.asString) env) ∧
    (∀ (n : Nat) k p (env : Environment),
      evalE (n + 1) 0 (.mk (.symbol "list") k [] p) env = .ok (listExp []) env) := by
  refine ⟨fun n k p env h hc => ?_, fun n k p env a bexp ha hl hb => ?_,
    fun n k p env a ha hl hx => ?_, fun n k p env => rfl⟩
  · cases h with
    | none => simp [Atom.isNumber, Atom.isComplex, Atom.isString] at hc
    | number v => rfl
    | complex re im => rfl
    | symbol s =>
      rcases hc with h1 | h2 | ⟨h3, h4⟩
      · simp [Atom.isNumber] at h1
      · simp [Atom.isComplex] at h2
      · have hs := isSymbol_eq_false_of_isString _ h3
        simp [evalE, handle_lookup, Expression.head, Expression.tail, h4, hs, h3]
  · simp [evalE, handle_lookup, Expression.head, Expression.tail, hl, ha,
      is_exp, get_exp, hb]
  · simp [evalE, handle_lookup, Expression.head, Expression.tail, hl, ha, hx]

/-- C1 witness: the four lookup clauses applied at concrete inputs. -/
theorem c1_witness :
    evalE 1 0 (.mk (.number (some 7)) .Singleton [] []) defaultEnv =
      .ok (ofAtom (.number (some 7))) defaultEnv ∧
    evalE 1 0 (.mk (.symbol "y") .Singleton [] [])
        (("y", .exp (ofAtom (.number (some 5)))) :: defaultEnv) =
      .ok (ofAtom (.number (some 5)))
        (("y", .exp (ofAtom (.number (some 5)))) :: defaultEnv) ∧
    evalE 1 0 (.mk (.symbol "zz") .Singleton [] []) defaultEnv =
      .err ("Error during handle lookup: unknown symbol " ++
        (Atom.symbol "zz").asString) defaultEnv ∧
    evalE 1 0 (.mk (.symbol "list") .Singleton [] []) defaultEnv =
      .ok (listExp []) defaultEnv := by
  refine ⟨c1_lookup_dispatch.1 0 _ _ _ _ (Or.inl rfl),
    c1_lookup_dispatch.2.1 0 _ _ _ _ _ rfl (by decide) rfl,
    c1_lookup_dispatch.2.2.1 0 _ _ _ _ rfl (by decide) rfl,
    c1_lookup_dispatch.2.2.2 0 _ _ _⟩

/-- Dispatch of a nonempty begin form to handle_begin. -/
theorem evalE_begin_cons (n : Nat) (k : ExpType) (p : List (String × Expression))
    (e : Expression) (es : List Expression) (env : Environment) :
    evalE (n + 1) 0 (.mk (.symbol "begin") k (e :: es) p) env =
      handle_begin (evalE n 0) (e :: es) env := rfl

/-- C4 (counterexample): `(begin)` parses to a begin head with empty tail,
and evaluating it fails with an unknown-symbol error instead of returning a
None expression: the empty-tail lookup rule of eval precedes the begin
dispatch, and `begin` is not bound in the environment. -/
theorem c4_counterexample :
    evalE 2 0 (symE "begin") defaultEnv =
      .err "Error during handle lookup: unknown symbol begin" defaultEnv ∧
    ∀ r env2, evalE 2 0 (symE "begin") defaultEnv ≠ Res.ok r env2 := by
  refine ⟨rfl, fun r env2 h => ?_⟩
  rw [show evalE 2 0 (symE "begin") defaultEnv =
    .err "Error during handle lookup: unknown symbol begin" defaultEnv from rfl] at h
  exact Res.noConfusion h

/-- C4 (amended): a begin form with at least one child evaluates its children
in order and returns the result of the last child — a singleton begin is the
evaluation of its only child, and after a successful first child the begin
continues on the rest in the updated environment; but a begin form with no
children is captured by the preceding empty-tail rule of eval and fails with
the unknown-symbol error whenever `begin` is not bound to an expression
(handle_begin itself, which would return a None expression, is never reached
with an empty tail). -/
theorem c4_begin_semantics :
    (∀ (n : Nat) k p (e : Expression) (env : Environment),
      evalE (n + 1) 0 (.mk (.symbol "begin") k [e] p) env = evalE n 0 e env) ∧
    (∀ (n : Nat) k p (e : Expression) (es : List Expression) (env : Environment)
      (r : Expression) (env1 : Environment),
      evalE n 0 e env = .ok r env1 → es ≠ [] →
      evalE (n + 1) 0 (.mk (.symbol "begin") k (e :: es) p) env =
        evalE (n + 1) 0 (.mk (.symbol "begin") k es p) env1) ∧
    (∀ (n : Nat) k p (env : Environment),
      is_exp env (.symbol "begin") = false →
      evalE (n + 1) 0 (.mk (.symbol "begin") k [] p) env =
        .err "Error during handle lookup: unknown symbol begin" env) := by
  refine ⟨fun n k p e env => ?_, fun n k p e es env r env1 he hes => ?_,
    fun n k p env hx => ?_⟩
  · rw [evalE_begin_cons]
    show beginLoop (evalE n 0) noneExp [e] env = evalE n 0 e env
    cases h : evalE n 0 e env <;> simp [beginLoop, h]
  · cases es with
    | nil => exact absurd rfl hes
    | cons e2 es2 =>
      rw [evalE_begin_cons, evalE_begin_cons]
      show beginLoop (evalE n 0) noneExp (e :: e2 :: es2) env =
        beginLoop (evalE n 0) noneExp (e2 :: es2) env1
      rw [show beginLoop (evalE n 0) noneExp (e :: e2 :: es2) env =
        (match evalE n 0 e env with
          | .ok r env1 => beginLoop (evalE n 0) r (e2 :: es2) env1
          | .err m env1 => .err m env1
          | .spin => .spin) from rfl, he]
      rfl
  · rw [show evalE (n + 1) 0 (.mk (.symbol "begin") k [] p) env =
      handle_lookup (.symbol "begin") env from rfl]
    unfold handle_lookup
    rw [if_pos (by decide : (Atom.symbol "begin").isSymbol = true)]
    rw [if_neg (by simp [hx] : ¬ is_exp env (.symbol "begin") = true)]
    rfl

/-- C4 witness: the three begin clauses applied at concrete inputs. -/
theorem c4_witness :
    evalE 2 0 (.mk (.symbol "begin") .Singleton [numE 7] []) defaultEnv =
      evalE 1 0 (numE 7) defaultEnv ∧
    evalE 2 0 (.mk (.symbol "begin") .Singleton [numE 7, numE 8] []) defaultEnv =
      evalE 2 0 (.mk (.symbol "begin") .Singleton [numE 8] []) defaultEnv ∧
    evalE 1 0 (.mk (.symbol "begin") .Singleton [] []) defaultEnv =
      .err "Error during handle lookup: unknown symbol begin" defaultEnv := by
  refine ⟨c4_begin_semantics.1 1 _ _ _ _,
    c4_begin_semantics.2.1 1 _ _ _ _ _ _ _ rfl (List.cons_ne_nil _ _),
    c4_begin_semantics.2.2 0 _ _ _ rfl⟩

/-- C8: when a child of a begin form fails, the error propagates immediately
(no retry, remaining children skipped) together with the environment as it
stood at the failure, so bindings added by earlier successful children are
kept; the first clause covers a failure after a successful first child, the
second a failure of the first child itself. -/
theorem c8_begin_error_persistence :
    (∀ (n : Nat) k p (e1 e2 : Expression) (es : List Expression)
      (env env1 env2 : Environment) (r : Expression) (m : String),
      evalE n 0 e1 env = .ok r env1 →
      evalE n 0 e2 env1 = .err m env2 →
      evalE (n + 1) 0 (.mk (.symbol "begin") k (e1 :: e2 :: es) p) env =
        .err m env2) ∧
    (∀ (n : Nat) k p (e : Expression) (es : List Expression)
      (env env1 : Environment) (m : String),
      evalE n 0 e env = .err m env1 →
      evalE (n + 1) 0 (.mk (.symbol "begin") k (e :: es) p) env = .err m env1) := by
  constructor
  · intro n k p e1 e2 es env env1 env2 r m h1 h2
    rw [evalE_begin_cons]
    show beginLoop (evalE n 0) noneExp (e1 :: e2 :: es) env = .err m env2
    rw [show beginLoop (evalE n 0) noneExp (e1 :: e2 :: es) env =
      (match evalE n 0 e1 env with
        | .ok r1 env1 => beginLoop (evalE n 0) r1 (e2 :: es) env1
        | .err m1 env1 => .err m1 env1
        | .spin => .spin) from rfl, h1]
    show beginLoop (evalE n 0) r (e2 :: es) env1 = .err m env2
    rw [show beginLoop (evalE n 0) r (e2 :: es) env1 =
      (match evalE n 0 e2 env1 with
        | .ok r2 env2 => beginLoop (evalE n 0) r2 es env2
        | .err m2 env2 => .err m2 env2
        | .spin => .spin) from rfl, h2]
  · intro n k p e es env env1 m h1
    rw [evalE_begin_cons]
    show beginLoop (evalE n 0) noneExp (e :: es) env = .err m env1
    rw [show beginLoop (evalE n 0) noneExp (e :: es) env =
      (match evalE n 0 e env with
        | .ok r1 env1 => beginLoop (evalE n 0) r1 es env1
        | .err m1 env1 => .err m1 env1
        | .spin => .spin) from rfl, h1]

/-- C8 witness: a begin whose first child defines `a` and whose second child
fails leaves the binding of `a` in the environment carried by the error. -/
theorem c8_witness :
    evalE 3 0 (pnode (.symbol "begin")
        [pnode (.symbol "define") [symE "a", numE 3], symE "b"]) defaultEnv =
      .err "Error during handle lookup: unknown symbol b"
        (("a", .exp (ofAtom (.number (some 3)))) :: defaultEnv) ∧
    envLookup (("a", .exp (ofAtom (.number (some 3)))) :: defaultEnv) "a" =
      some (.exp (ofAtom (.number (some 3)))) :=
  ⟨c8_begin_error_persistence.1 2 _ _ _ _ _ _ _ _ _ _ rfl rfl, rfl⟩

/-- The lexical-scoping example of the claim as a program tree. -/
def c2prog : Expression :=
  pnode (.symbol "begin")
    [pnode (.symbol "define") [symE "x", numE 1],
     pnode (.symbol "define") [symE "f",
       pnode (.symbol "lambda") [symE "x", symE "x"]],
     pnode (.symbol "f") [numE 2]]

/-- The lambda value bound to f in the example. -/
def c2lam : Expression := lambdaExp [ofAtom (.symbol "x")] (symE "x")

/-- The environment after running the example. -/
def c2finalEnv : Environment :=
  ("f", .exp c2lam) :: ("x", .exp (ofAtom (.number (some 1)))) :: defaultEnv

/-- C2: applying a lambda whose parameter template length matches the
argument count evaluates the body in a copy of the caller environment with
each parameter shadowed by the corresponding argument — apply receives the
environment by const reference and returns only the value, so the caller
environment cannot change; and the example of the claim evaluates to 2 while
leaving x bound to 1. -/
theorem c2_lexical_scoping :
    (∀ (ev : Expression → Environment → Res) (op : Atom)
      (args : List Expression) (env : Environment) (tmpl body : Expression),
      (get_exp env op).kind = .Lambda →
      (get_exp env op).tail = [tmpl, body] →
      args.length = tmpl.tail.length →
      applyFn ev op args env = toPRes (ev body (shadowParams env tmpl.tail args))) ∧
    (evalE 10 0 c2prog defaultEnv = .ok (ofAtom (.number (some 2))) c2finalEnv ∧
     envLookup c2finalEnv "x" = some (.exp (ofAtom (.number (some 1))))) := by
  refine ⟨fun ev op args env tmpl body hk ht hl => ?_, rfl, rfl⟩
  simp [applyFn, Expression.isLambda, hk, ht, hl, List.getLastD]

/-- C2 witness: the application clause at a concrete lambda call, together
with the example clause. -/
theorem c2_witness :
    applyFn (evalE 5 0) (.symbol "f") [ofAtom (.number (some 2))]
        (("f", .exp c2lam) :: defaultEnv) =
      toPRes (evalE 5 0 (symE "x")
        (shadowParams (("f", .exp c2lam) :: defaultEnv)
          [ofAtom (.symbol "x")] [ofAtom (.number (some 2))])) ∧
    evalE 10 0 c2prog defaultEnv = .ok (ofAtom (.number (some 2))) c2finalEnv :=
  ⟨c2_lexical_scoping.1 (evalE 5 0) _ _ _
      (listExp [ofAtom (.symbol "x")]) (symE "x") rfl rfl rfl,
   c2_lexical_scoping.2.1⟩

/-- Dispatch of a two-child define form to handle_define. -/
theorem evalE_define (n : Nat) (k : ExpType) (p : List (String × Expression))
    (t0 v : Expression) (env : Environment) :
    evalE (n + 1) 0 (.mk (.symbol "define") k [t0, v] p) env =
      handle_define (evalE n 0) [t0, v] env := rfl

/-- C3 (counterexample): `apply` names a special form, yet
`(define apply 3)` succeeds and binds apply to 3 — handle_define refuses only
define, begin, lambda and list among the special forms, and apply has no
environment entry to trip the built-in-procedure test. -/
theorem c3_counterexample :
    evalE 3 0 (pnode (.symbol "define") [symE "apply", numE 3]) defaultEnv =
      .ok (ofAtom (.number (some 3)))
        (("apply", .exp (ofAtom (.number (some 3)))) :: defaultEnv) ∧
    envLookup (("apply", .exp (ofAtom (.number (some 3)))) :: defaultEnv) "apply" =
      some (.exp (ofAtom (.number (some 3)))) := ⟨rfl, rfl⟩

/-- C3 (amended): a define whose target symbol is one of the special forms
define, begin, lambda, list, or names a built-in procedure, or is one of the
constants pi, e, I, fails with a semantic error and leaves the environment
unchanged; but the remaining special-form names (apply, map, set-property,
get-property, discrete-plot, continuous-plot) are not refused: when the
target is none of the refused names, define evaluates the value and binds
it. -/
theorem c3_define_reservation :
    (∀ (n : Nat) k p (t0 v : Expression) (env : Environment),
      t0.head.isSymbol = true →
      (t0.head.asSymbol = "define" ∨ t0.head.asSymbol = "begin" ∨
        t0.head.asSymbol = "lambda" ∨ t0.head.asSymbol = "list" ∨
        is_proc env t0.head = true ∨
        t0.head.asSymbol = "pi" ∨ t0.head.asSymbol = "e" ∨
        t0.head.asSymbol = "I") →
      ∃ m, evalE (n + 1) 0 (.mk (.symbol "define") k [t0, v] p) env =
        .err m env) ∧
    (∀ (n : Nat) k p (t0 v : Expression) (env env1 : Environment) (r : Expression),
      t0.head.isSymbol = true →
      ¬(t0.head.asSymbol = "define" ∨ t0.head.asSymbol = "begin" ∨
        t0.head.asSymbol = "lambda" ∨ t0.head.asSymbol = "list") →
      is_proc env t0.head = false →
      ¬(t0.head.asSymbol = "pi" ∨ t0.head.asSymbol = "e" ∨
        t0.head.asSymbol = "I") →
      evalE n 0 v env = .ok r env1 →
      evalE (n + 1) 0 (.mk (.symbol "define") k [t0, v] p) env =
        .ok r ((t0.head.asSymbol, .exp r) :: env1)) := by
  constructor
  · intro n k p t0 v env hs hr
    rw [evalE_define]
    unfold handle_define
    rw [if_neg (by simp)]
    simp only [List.getD_cons_zero]
    rw [if_neg (by simp [hs])]
    rcases hr with h | h | h | h | h | h | h | h
    · rw [if_pos (Or.inl h)]; exact ⟨_, rfl⟩
    · rw [if_pos (Or.inr (Or.inl h))]; exact ⟨_, rfl⟩
    · rw [if_pos (Or.inr (Or.inr (Or.inl h)))]; exact ⟨_, rfl⟩
    · rw [if_pos (Or.inr (Or.inr (Or.inr h)))]; exact ⟨_, rfl⟩
    · by_cases h4 : t0.head.asSymbol = "define" ∨ t0.head.asSymbol = "begin" ∨
        t0.head.asSymbol = "lambda" ∨ t0.head.asSymbol = "list"
      · rw [if_pos h4]; exact ⟨_, rfl⟩
      · rw [if_neg h4, if_pos (by simp [h])]; exact ⟨_, rfl⟩
    all_goals {
      by_cases h4 : t0.head.asSymbol = "define" ∨ t0.head.asSymbol = "begin" ∨
        t0.head.asSymbol = "lambda" ∨ t0.head.asSymbol = "list"
      · rw [if_pos h4]; exact ⟨_, rfl⟩
      · by_cases hp : is_proc env t0.head = true
        · rw [if_neg h4, if_pos (by simp [hp])]; exact ⟨_, rfl⟩
        · rw [if_neg h4, if_neg (by simp [hp]),
            if_pos (by simp [h])]
          exact ⟨_, rfl⟩
    }
  · intro n k p t0 v env env1 r hs h4 hp hpi hv
    rw [evalE_define]
    unfold handle_define
    rw [if_neg (by simp)]
    simp only [List.getD_cons_zero]
    rw [if_neg (by simp [hs]), if_neg h4, if_neg (by simp [hp]), if_neg hpi]
    simp only [List.getD_cons_succ, List.getD_cons_zero]
    rw [hv]
    rfl

/-- C3 witness: the reservation clause at `(define pi 3)` and the
definability clause at `(define map 3)`. -/
theorem c3_witness :
    (∃ m, evalE 2 0 (pnode (.symbol "define") [symE "pi", numE 3]) defaultEnv =
      .err m defaultEnv) ∧
    evalE 2 0 (pnode (.symbol "define") [symE "map", numE 3]) defaultEnv =
      .ok (ofAtom (.number (some 3)))
        (((Atom.symbol "map").asSymbol, EnvEntry.exp (ofAtom (.number (some 3)))) ::
          defaultEnv) := by
  constructor
  · exact c3_define_reservation.1 1 _ _ _ _ _ rfl
      (Or.inr (Or.inr (Or.inr (Or.inr (Or.inr (Or.inl (by decide)))))))
  · exact c3_define_reservation.2 1 _ _ _ _ _ _ _ rfl (by decide) rfl
      (by decide) rfl

/-- Evaluation of a three-child set-property form: the target is evaluated
first, then the value; the value is stored on the returned copy of the target
under the full quoted key, overwriting any previous entry. -/
theorem set_property_eval (n : Nat) (kq : String) (t v : Expression)
    (env env1 env2 : Environment) (T V : Expression)
    (hk : (Atom.symbol kq).isString = true)
    (ht : evalE n 0 t env = .ok T env1)
    (hv : evalE n 0 v env1 = .ok V env2) :
    evalE (n + 1) 0
      (pnode (.symbol "set-property") [pnode (.symbol kq) [], v, t]) env =
      .ok (withPropSet kq V T) env2 := by
  rw [show evalE (n + 1) 0
      (pnode (.symbol "set-property") [pnode (.symbol kq) [], v, t]) env =
    handle_set_property (evalE n 0) [pnode (.symbol kq) [], v, t] env from rfl]
  unfold handle_set_property
  rw [if_pos (by simp)]
  simp only [List.getD_cons_zero, List.getD_cons_succ]
  rw [if_pos (by simpa [pnode, Expression.head] using hk)]
  rw [ht]
  dsimp only
  rw [hv]
  rfl

/-- C5: reading a property immediately after setting it returns the evaluated
value (the roundtrip), and reading an absent key returns a default None
expression. -/
theorem c5_property_roundtrip (n : Nat) (kq kq2 : String) (t v : Expression)
    (env env1 env2 : Environment) (T V : Expression)
    (hk : (Atom.symbol kq).isString = true)
    (ht : evalE n 0 t env = .ok T env1)
    (hv : evalE n 0 v env1 = .ok V env2) :
    (evalE (n + 2) 0
      (pnode (.symbol "get-property")
        [pnode (.symbol kq) [],
         pnode (.symbol "set-property") [pnode (.symbol kq) [], v, t]]) env =
      .ok V env2) ∧
    ((Atom.symbol kq2).isString = true → T.props.lookup kq2 = none →
      evalE (n + 1) 0
        (pnode (.symbol "get-property") [pnode (.symbol kq2) [], t]) env =
      .ok noneExp env1) := by
  constructor
  · rw [show evalE (n + 2) 0
        (pnode (.symbol "get-property")
          [pnode (.symbol kq) [],
           pnode (.symbol "set-property") [pnode (.symbol kq) [], v, t]]) env =
      handle_get_property (evalE (n + 1) 0)
        [pnode (.symbol kq) [],
         pnode (.symbol "set-property") [pnode (.symbol kq) [], v, t]] env from rfl]
    unfold handle_get_property
    rw [if_pos (by simp)]
    simp only [List.getD_cons_zero, List.getD_cons_succ]
    rw [set_property_eval n kq t v env env1 env2 T V hk ht hv]
    dsimp only
    rw [if_pos (by simpa [pnode, Expression.head] using hk)]
    simp [pnode, Expression.head, Atom.asString, Expression.getProperty,
      withPropSet, Expression.props, List.lookup]
  · intro hk2 hnone
    rw [show evalE (n + 1) 0
        (pnode (.symbol "get-property") [pnode (.symbol kq2) [], t]) env =
      handle_get_property (evalE n 0) [pnode (.symbol kq2) [], t] env from rfl]
    unfold handle_get_property
    rw [if_pos (by simp)]
    simp only [List.getD_cons_zero, List.getD_cons_succ]
    rw [ht]
    dsimp only
    rw [if_pos (by simpa [pnode, Expression.head] using hk2)]
    simp [pnode, Expression.head, Atom.asString, Expression.getProperty, hnone]

/-- C5 witness: the roundtrip at the concrete example of the claim,
`(get-property "key" (set-property "key" 42 (list 1 2)))`, and the default
None for an absent key. -/
theorem c5_witness :
    evalE 5 0
      (pnode (.symbol "get-property")
        [pnode (.symbol "\"key\"") [],
         pnode (.symbol "set-property")
           [pnode (.symbol "\"key\"") [], numE 42,
            pnode (.symbol "list") [numE 1, numE 2]]]) defaultEnv =
      .ok (ofAtom (.number (some 42))) defaultEnv ∧
    evalE 4 0
      (pnode (.symbol "get-property")
        [pnode (.symbol "\"zzz\"") [],
         pnode (.symbol "list") [numE 1, numE 2]]) defaultEnv =
      .ok noneExp defaultEnv := by
  have h := c5_property_roundtrip 3 "\"key\"" "\"zzz\""
    (pnode (.symbol "list") [numE 1, numE 2]) (numE 42)
    defaultEnv defaultEnv defaultEnv
    (listExp [ofAtom (.number (some 1)), ofAtom (.number (some 2))])
    (ofAtom (.number (some 42))) rfl rfl rfl
  exact ⟨h.1, h.2 rfl rfl⟩

/-- Applying the make-point procedure through apply on two number leaves
always succeeds with a point expression, in any environment that binds
make-point to the built-in. -/
theorem mkpt_ok (ev : Expression → Environment → Res) (env : Environment)
    (h : envLookup env "make-point" = some (.proc "make-point")) (x y : D) :
    mkpt ev env x y = .ok (mkPointExp (ofAtom (.number x)) (ofAtom (.number y))) := by
  have hg : get_exp env (.symbol "make-point") = noneExp := by
    unfold get_exp
    rw [if_pos (by decide : (Atom.symbol "make-point").isSymbol = true),
      show (Atom.symbol "make-point").asSymbol = "make-point" from rfl, h]
  have hp : is_proc env (.symbol "make-point") = true := by
    unfold is_proc
    rw [show (Atom.symbol "make-point").asSymbol = "make-point" from rfl, h]
    rfl
  unfold mkpt applyFn
  rw [hg]
  rw [if_neg (by decide : ¬ noneExp.isLambda = true)]
  rw [if_neg (by decide : ¬ (!(Atom.symbol "make-point").isSymbol) = true)]
  rw [hp]
  rw [if_neg (by decide : ¬ (!true) = true)]
  rw [show (Atom.symbol "make-point").asSymbol = "make-point" from rfl, h]
  rfl

/-- Applying the make-line procedure through apply on any two arguments
always succeeds with a line expression, in any environment that binds
make-line to the built-in. -/
theorem mkln_ok (ev : Expression → Environment → Res) (env : Environment)
    (h : envLookup env "make-line" = some (.proc "make-line"))
    (a b : Expression) :
    mkln ev env a b = .ok (mkLineExp a b) := by
  have hg : get_exp env (.symbol "make-line") = noneExp := by
    unfold get_exp
    rw [if_pos (by decide : (Atom.symbol "make-line").isSymbol = true),
      show (Atom.symbol "make-line").asSymbol = "make-line" from rfl, h]
  have hp : is_proc env (.symbol "make-line") = true := by
    unfold is_proc
    rw [show (Atom.symbol "make-line").asSymbol = "make-line" from rfl, h]
    rfl
  unfold mkln applyFn
  rw [hg]
  rw [if_neg (by decide : ¬ noneExp.isLambda = true)]
  rw [if_neg (by decide : ¬ (!(Atom.symbol "make-line").isSymbol) = true)]
  rw [hp]
  rw [if_neg (by decide : ¬ (!true) = true)]
  rw [show (Atom.symbol "make-line").asSymbol = "make-line" from rfl, h]
  rfl

/-- The value computed by the stem loop: for each data point the plotted
point followed by its stem line. -/
def stemExpect (sb : D) : List Expression → List Expression
  | [] => []
  | p :: ps =>
    mkPointExp (ofAtom (.number ((p.tail.getD 0 noneExp).head.asNumber)))
        (ofAtom (.number (dneg ((p.tail.getD 1 noneExp).head.asNumber)))) ::
    mkLineExp
      (mkPointExp (ofAtom (.number ((p.tail.getD 0 noneExp).head.asNumber)))
        (ofAtom (.number (dneg ((p.tail.getD 1 noneExp).head.asNumber)))))
      (mkPointExp (ofAtom (.number ((p.tail.getD 0 noneExp).head.asNumber)))
        (ofAtom (.number sb))) :: stemExpect sb ps

/-- The stem loop never fails when make-point and make-line are bound to the
built-ins. -/
theorem stemLoop_eq (ev : Expression → Environment → Res) (env : Environment)
    (hp : envLookup env "make-point" = some (.proc "make-point"))
    (hl : envLookup env "make-line" = some (.proc "make-line"))
    (sb : D) : ∀ pts, stemLoop ev env sb pts = .ok (stemExpect sb pts) := by
  intro pts
  induction pts with
  | nil => rfl
  | cons p ps ih =>
    rw [show stemLoop ev env sb (p :: ps) =
      (match mkpt ev env ((p.tail.getD 0 noneExp).head.asNumber)
          (dneg ((p.tail.getD 1 noneExp).head.asNumber)) with
        | .ok np =>
          match mkpt ev env ((p.tail.getD 0 noneExp).head.asNumber) sb with
          | .ok sbp =>
            match mkln ev env np sbp with
            | .ok sl =>
              match stemLoop ev env sb ps with
              | .ok rest => PLRes.ok (np :: sl :: rest)
              | .err m => .err m
              | .spin => .spin
            | .err m => .err m
            | .spin => .spin
          | .err m => .err m
          | .spin => .spin
        | .err m => .err m
        | .spin => .spin) from rfl]
    simp only [mkpt_ok ev env hp, mkln_ok ev env hl, ih, stemExpect]

/-- Bind on a successful PRes computation. -/
theorem PRes.bind_ok (e : Expression) (f : Expression → PRes) :
    PRes.bind (PRes.ok e) f = f e := rfl

/-- Binding a computation to an if whose branches are both ok pushes the
continuation into the branches. -/
theorem bind_ite_ok {c : Prop} [Decidable c] (a b : Expression)
    (f : Expression → PRes) :
    PRes.bind (if c then PRes.ok a else PRes.ok b) f = f (if c then a else b) := by
  by_cases h : c <;> simp [h, PRes.bind]

/-- C6 (counterexample): with valid arguments (a lambda and a bounds list),
continuous-plot evaluates to the default None expression — kind None, no
children, no properties — not to a Plot expression carrying numpoints and
numoptions; the construction is commented out in the source. -/
theorem c6_counterexample :
    evalE 10 0
      (pnode (.symbol "continuous-plot")
        [pnode (.symbol "lambda") [symE "x", symE "x"],
         pnode (.symbol "list") [numE 0, numE 1]]) defaultEnv =
      .ok noneExp defaultEnv ∧
    noneExp.kind ≠ .Plot ∧
    noneExp.props.lookup "numpoints" = none ∧
    noneExp.props.lookup "numoptions" = none := by
  exact ⟨rfl, by decide, rfl, rfl⟩

/-- C6 (amended): discrete-plot behaves as claimed — with arguments that
evaluate to lists and an environment binding make-point and make-line to the
built-ins, it returns a Plot-kind expression whose numpoints property is the
data-list length, whose numoptions property is the options-list length and
whose type property is DP; continuous-plot however only checks its arguments
(a lambda, a bounds list) and returns a default None expression with no
children and no properties. -/
theorem c6_plot_construction :
    (∀ (n : Nat) k p (d o : Expression) (env env1 env2 : Environment)
      (DATA OPTIONS : Expression),
      evalE n 0 d env = .ok DATA env1 → DATA.kind = .List →
      evalE n 0 o env1 = .ok OPTIONS env2 → OPTIONS.kind = .List →
      envLookup env2 "make-point" = some (.proc "make-point") →
      envLookup env2 "make-line" = some (.proc "make-line") →
      ∃ P, evalE (n + 1) 0 (.mk (.symbol "discrete-plot") k [d, o] p) env =
          .ok P env2 ∧
        P.kind = .Plot ∧
        P.getProperty "numpoints" = ofAtom (.number (some DATA.tail.length)) ∧
        P.getProperty "numoptions" = ofAtom (.number (some OPTIONS.tail.length)) ∧
        P.getProperty "type" = ofAtom (.symbol "DP")) ∧
    (∀ (n : Nat) k p (f b : Expression) (env env1 env2 : Environment)
      (F B : Expression),
      evalE n 0 f env = .ok F env1 → F.kind = .Lambda →
      evalE n 0 b env1 = .ok B env2 → B.kind = .List →
      evalE (n + 1) 0 (.mk (.symbol "continuous-plot") k [f, b] p) env =
        .ok noneExp env2) := by
  constructor
  · intro n k p d o env env1 env2 DATA OPTIONS hd hDL ho hOL hp hl
    have key : ∃ children,
        evalE (n + 1) 0 (.mk (.symbol "discrete-plot") k [d, o] p) env =
        .ok (withPropSet "numoptions" (ofAtom (.number (some OPTIONS.tail.length)))
          (withPropSet "numpoints" (ofAtom (.number (some DATA.tail.length)))
            (plotExp "DP" children))) env2 := by
      rw [show evalE (n + 1) 0 (.mk (.symbol "discrete-plot") k [d, o] p) env =
        handle_discrete_plot (evalE n 0) [d, o] env from rfl]
      unfold handle_discrete_plot
      rw [if_neg (by simp)]
      simp only [List.getD_cons_zero, List.getD_cons_succ]
      rw [hd]
      dsimp only
      rw [ho]
      dsimp only
      rw [if_neg (by simp [Expression.isList, hDL, hOL])]
      simp only [mkpt_ok (evalE n 0) env2 hp, mkln_ok (evalE n 0) env2 hl,
        stemLoop_eq (evalE n 0) env2 hp hl, PRes.bind_ok]
      simp only [bind_ite_ok, PRes.bind_ok]
      exact ⟨_, rfl⟩
    obtain ⟨ch, hch⟩ := key
    exact ⟨_, hch, rfl, rfl, rfl, rfl⟩
  · intro n k p f b env env1 env2 F B hf hFL hb hBL
    rw [show evalE (n + 1) 0 (.mk (.symbol "continuous-plot") k [f, b] p) env =
      handle_cont_plot (evalE n 0) [f, b] env from rfl]
    unfold handle_cont_plot
    rw [if_neg (by simp)]
    simp only [List.getD_cons_zero, List.getD_cons_succ]
    rw [hf]
    dsimp only
    rw [if_neg (by simp [Expression.isLambda, hFL])]
    rw [hb]
    dsimp only
    rw [if_neg (by simp [Expression.isList, hBL])]
    rw [if_neg (by simp)]

/-- C6 witness: the discrete clause at a two-point data list with empty
options, and the continuous clause at a lambda with a two-number bounds
list. -/
theorem c6_witness :
    (∃ P, evalE 5 0
        (.mk (.symbol "discrete-plot") .Singleton
          [pnode (.symbol "list")
            [pnode (.symbol "list") [numE 0, numE 5],
             pnode (.symbol "list") [numE 2, numE 3]],
           pnode (.symbol "list") []] []) defaultEnv = .ok P defaultEnv ∧
      P.kind = .Plot ∧
      P.getProperty "numpoints" =
        ofAtom (.number (some (listExp [listExp [ofAtom (.number (some 0)),
          ofAtom (.number (some 5))], listExp [ofAtom (.number (some 2)),
          ofAtom (.number (some 3))]]).tail.length)) ∧
      P.getProperty "numoptions" =
        ofAtom (.number (some (listExp ([] : List Expression)).tail.length)) ∧
      P.getProperty "type" = ofAtom (.symbol "DP")) ∧
    evalE 5 0
      (.mk (.symbol "continuous-plot") .Singleton
        [pnode (.symbol "lambda") [symE "x", symE "x"],
         pnode (.symbol "list") [numE 0, numE 1]] []) defaultEnv =
      .ok noneExp defaultEnv := by
  constructor
  · exact c6_plot_construction.1 4 _ _ _ _ _ _ _ _ _ rfl rfl rfl rfl rfl rfl
  · exact c6_plot_construction.2 4 _ _ _ _ _ _ _
      (lambdaExp [ofAtom (.symbol "x")] (symE "x"))
      (listExp [ofAtom (.number (some 0)), ofAtom (.number (some 1))])
      rfl rfl rfl rfl
